import Mathlib

/-!
Shallow embedding of axum's top-level `Router` composition layer
(`src/axum/src/routing/mod.rs`): the `Router` record with its two path
matchers, default-fallback flag and catch-all `Fallback`; the composition
algebra (`route`, `route_service`, `nest`, `merge`, `layer`, `route_layer`,
`fallback`, `fallback_service`, `with_state`) and the three-tier dispatch
entry point `call_with_state`.

The path-matching structure (`path_router.rs`), the boxed `Route`
(`route.rs`) and method routing are not part of the supplied source; the
definitions for those are modelled from the spec and marked as such.
Handlers, services and middleware layers are modelled as opaque numeric
tags; futures are collapsed to the responses they eventually produce, and
a Rust panic is modelled as the `Outcome.panicked` result of a
construction operation.
-/

/-- A response value.  `notFound` is the built-in 404 response produced by
the `NotFound` service; `fromService` the response of an opaque service;
`wrapped` marks that a middleware layer (identified by its tag) processed
the inner response. -/
inductive Response where
  | notFound : Response
  | fromService (tag : Nat) : Response
  | wrapped (layerTag : Nat) (inner : Response) : Response
deriving DecidableEq, Repr

/-- Modelled from the spec: `Route` (route.rs, not in the supplied source)
is an opaque boxed service.  `Route.notFound` stands for
`Route::new(NotFound)`, `Route.svc` for any other boxed service, and
`Route.layer` for `route.layer(middleware)` with the middleware modelled
as a numeric tag. -/
inductive Route where
  | notFound : Route
  | svc (tag : Nat) : Route
  | layer (layerTag : Nat) (inner : Route) : Route
deriving DecidableEq, Repr

/-- Invoking a `Route` always produces a response (the callable is
infallible by contract). -/
def Route.call : Route → Response
  | .notFound => .notFound
  | .svc t => .fromService t
  | .layer l r => .wrapped l (Route.call r)

/-- Modelled from the spec: `BoxedIntoRoute` (boxed.rs, not in the
supplied source) is a handler template that still needs application state
to become a callable `Route`; `map` records a pending middleware
wrapping. -/
inductive BoxedIntoRoute where
  | fromHandler (tag : Nat) : BoxedIntoRoute
  | map (layerTag : Nat) (inner : BoxedIntoRoute) : BoxedIntoRoute
deriving DecidableEq, Repr

/-- Binding a handler template to a state value yields a concrete
`Route`; the bound service depends on both the handler and the state. -/
def BoxedIntoRoute.into_route : BoxedIntoRoute → Nat → Route
  | .fromHandler t, state => .svc (Nat.pair t state)
  | .map l b, state => .layer l (b.into_route state)

/-- Modelled from the spec: a method dispatch table
(`method_routing.rs`, not in the supplied source), kept abstract as a
handler-shaped endpoint that needs state to become a `Route`, possibly
wrapped by middleware. -/
inductive MethodRouter where
  | handler (tag : Nat) : MethodRouter
  | layer (layerTag : Nat) (inner : MethodRouter) : MethodRouter
deriving DecidableEq, Repr

/-- Binding a method router to a state value yields a callable `Route`. -/
def MethodRouter.into_route : MethodRouter → Nat → Route
  | .handler t, state => .svc (Nat.pair t state)
  | .layer l m, state => .layer l (m.into_route state)

/-- The `any(handler)` method-router constructor used by
`Router::fallback`. -/
def any (h : Nat) : MethodRouter := .handler h

/-- An endpoint stored at a path pattern: either a method dispatch table
or an opaque callable service (routing/mod.rs, `enum Endpoint`). -/
inductive Endpoint where
  | methodRouter (m : MethodRouter) : Endpoint
  | route (r : Route) : Endpoint
deriving DecidableEq, Repr

/-- Endpoint middleware wrapping (routing/mod.rs, `Endpoint::layer`). -/
def Endpoint.layer (e : Endpoint) (layerTag : Nat) : Endpoint :=
  match e with
  | .methodRouter m => .methodRouter (.layer layerTag m)
  | .route r => .route (.layer layerTag r)

/-- Invoking an endpoint: a stored `Route` is called directly; a method
router is first bound to the request-time state (this is the per-request
binding that `with_state` is meant to make unnecessary). -/
def Endpoint.call (e : Endpoint) (state : Nat) : Response :=
  match e with
  | .methodRouter m => (m.into_route state).call
  | .route r => r.call

/-- Modelled from the spec: eager state binding of one endpoint, turning a
handler-shaped method router into a concrete bound `Route`. -/
def Endpoint.with_state (e : Endpoint) (state : Nat) : Endpoint :=
  match e with
  | .methodRouter m => .route (m.into_route state)
  | .route r => .route r

/-- True when the endpoint is a concrete bound service (no remaining
state-requiring template). -/
def Endpoint.isRoute : Endpoint → Bool
  | .route _ => true
  | .methodRouter _ => false

/-- One segment of a path pattern, per the spec's data model: literal,
named parameter, or trailing wildcard. -/
inductive Seg where
  | lit (text : String) : Seg
  | param (name : String) : Seg
  | wild (name : String) : Seg
deriving DecidableEq, Repr

/-- A path pattern is an ordered sequence of segments (spec, section 3). -/
abbrev Pattern := List Seg

/-- A request path, pre-split into its segments; the empty list is the
empty path of a CONNECT request. -/
abbrev ReqPath := List String

/-- Reserved private parameter name used for subtree tail capture in
`nest` (routing/mod.rs). -/
def NEST_TAIL_PARAM : String := "__private__axum_nest_tail_param"

/-- Reserved private parameter name used for custom-fallback propagation
(routing/mod.rs). -/
def FALLBACK_PARAM : String := "__private__axum_fallback"

/-- Modelled from the spec (section 4.1): whether a pattern matches a
path.  Literal segments must match exactly, a named parameter consumes
one segment, and a trailing wildcard consumes the whole remaining
suffix. -/
def segsMatch : Pattern → ReqPath → Bool
  | [], [] => true
  | [Seg.wild _], _ => true
  | Seg.lit s :: ps, x :: xs => s == x && segsMatch ps xs
  | Seg.param _ :: ps, _ :: xs => segsMatch ps xs
  | _, _ => false

/-- The shape of a pattern: segment kinds (literal < parameter <
wildcard) together with literal texts, parameter names ignored.  Two
patterns conflict exactly when their shapes are equal ("structurally
identical after normalization"), and among the patterns matching a given
path the lexicographically least shape is the most specific one, which is
the spec's trie precedence (literal before parameter before wildcard at
each node). -/
abbrev ShapeKey := List (Nat ×ₗ List Char)

/-- Shape of one segment. -/
def segShape : Seg → Nat ×ₗ List Char
  | .lit s => toLex (0, s.data)
  | .param _ => toLex (1, [])
  | .wild _ => toLex (2, [])

/-- Shape of a pattern. -/
def patShape (p : Pattern) : ShapeKey := p.map segShape

/-- One step of taking the least shape key of a list. -/
def minKey (k : ShapeKey) (acc : Option ShapeKey) : Option ShapeKey :=
  match acc with
  | none => some k
  | some m => some (min k m)

/-- Least shape key of a list of keys, `none` when the list is empty. -/
def bestShape (keys : List ShapeKey) : Option ShapeKey := keys.foldr minKey none

/-- Modelled from the spec (section 4.1): most-specific-first matching.
Among the registered routes whose pattern matches the path, the one with
the least shape key (the most specific pattern) wins. -/
def matchRoutes (routes : List (Pattern × Endpoint)) (path : ReqPath) :
    Option (Pattern × Endpoint) :=
  let cands := routes.filter fun pe => segsMatch pe.1 path
  match bestShape (cands.map fun pe => patShape pe.1) with
  | none => none
  | some k => cands.find? fun pe => patShape pe.1 == k

/-- Modelled from the spec: the path matcher (path_router.rs, not in the
supplied source).  `routes` is the pattern-keyed table; `fallbackRoot`
is only used by the fallback-flavored matcher and holds the endpoint
installed by `set_fallback`, which governs every non-empty path the
route table itself does not cover. -/
structure PathRouter where
  routes : List (Pattern × Endpoint)
  fallbackRoot : Option Endpoint
deriving DecidableEq, Repr

/-- Modelled from the spec: insertion with conflict detection; two
patterns that are structurally identical after normalization (equal
shapes) conflict and registration fails with a descriptive error. -/
def PathRouter.insert (pr : PathRouter) (pat : Pattern) (e : Endpoint) :
    Except String PathRouter :=
  if pr.routes.any fun pe => patShape pe.1 == patShape pat then
    .error "Invalid route: conflict with previously registered route"
  else
    .ok { routes := pr.routes ++ [(pat, e)], fallbackRoot := pr.fallbackRoot }

/-- Insert a list of routes one by one, stopping at the first conflict. -/
def PathRouter.insertAll : PathRouter → List (Pattern × Endpoint) → Except String PathRouter
  | pr, [] => .ok pr
  | pr, pe :: rest =>
    match pr.insert pe.1 pe.2 with
    | .error e => .error e
    | .ok pr' => pr'.insertAll rest

/-- Modelled from the spec: `route` inserts one pattern mapping to a
method-router endpoint; conflict fails. -/
def PathRouter.route (pr : PathRouter) (path : Pattern) (method_router : MethodRouter) :
    Except String PathRouter :=
  pr.insert path (.methodRouter method_router)

/-- Modelled from the spec: register an opaque service endpoint. -/
def PathRouter.route_service (pr : PathRouter) (path : Pattern) (svc : Route) :
    Except String PathRouter :=
  pr.insert path (.route svc)

/-- Modelled from the spec: `nest` rewrites a nested pattern by
prepending the prefix pattern and appending the reserved tail
wildcard. -/
def nestPattern (path p : Pattern) : Pattern :=
  path ++ p ++ [Seg.wild NEST_TAIL_PARAM]

/-- Modelled from the spec: nest every route of `other` under the prefix
`path`; a custom fallback root of `other` becomes a reserved wildcard
pattern under the prefix, so the nested fallback fires for unmatched
paths under that prefix. -/
def PathRouter.nest (pr : PathRouter) (path : Pattern) (other : PathRouter) :
    Except String PathRouter :=
  pr.insertAll
    ((other.routes.map fun pe => (nestPattern path pe.1, pe.2)) ++
      (match other.fallbackRoot with
       | some e => [(path ++ [Seg.wild FALLBACK_PARAM], e)]
       | none => []))

/-- Modelled from the spec: union of two route tables, conflict on
overlapping patterns fails; a custom fallback root of the argument
replaces (propagates over) the receiver's. -/
def PathRouter.merge (pr other : PathRouter) : Except String PathRouter :=
  match pr.insertAll other.routes with
  | .error e => .error e
  | .ok merged =>
    .ok { routes := merged.routes,
          fallbackRoot :=
            match other.fallbackRoot with
            | some e => some e
            | none => merged.fallbackRoot }

/-- Modelled from the spec: wrap every stored endpoint (and the fallback
root) with the middleware; the pattern table itself is unchanged. -/
def PathRouter.layer (pr : PathRouter) (layerTag : Nat) : PathRouter :=
  { routes := pr.routes.map fun pe => (pe.1, pe.2.layer layerTag),
    fallbackRoot := pr.fallbackRoot.map fun e => e.layer layerTag }

/-- Modelled from the spec: `route_layer` on the normal path matcher
wraps its registered routes. -/
def PathRouter.route_layer (pr : PathRouter) (layerTag : Nat) : PathRouter :=
  pr.layer layerTag

/-- Modelled from the spec: eager state binding of every stored
endpoint. -/
def PathRouter.with_state (pr : PathRouter) (state : Nat) : PathRouter :=
  { routes := pr.routes.map fun pe => (pe.1, pe.2.with_state state),
    fallbackRoot := pr.fallbackRoot.map fun e => e.with_state state }

/-- Modelled from the spec: install a custom fallback endpoint governing
the whole fallback matcher. -/
def PathRouter.set_fallback (pr : PathRouter) (e : Endpoint) : PathRouter :=
  { routes := pr.routes, fallbackRoot := some e }

/-- Modelled from the spec: the fallback matcher of a freshly constructed
router is empty (the built-in 404 lives in the tier-3 catch-all
fallback). -/
def PathRouter.new_fallback : PathRouter := { routes := [], fallbackRoot := none }

/-- Match a path against the matcher: the route table first; on a miss a
fallback root, when installed, covers every non-empty path. -/
def PathRouter.matchEndpoint (pr : PathRouter) (path : ReqPath) : Option Endpoint :=
  match matchRoutes pr.routes path with
  | some pe => some pe.2
  | none => if path.isEmpty then none else pr.fallbackRoot

/-- Dispatch one request against the matcher: `none` is a miss (the
request and state travel on to the next tier). -/
def PathRouter.call_with_state (pr : PathRouter) (path : ReqPath) (state : Nat) :
    Option Response :=
  (pr.matchEndpoint path).map fun e => e.call state

/-- True if at least one route is registered. -/
def PathRouter.has_routes (pr : PathRouter) : Bool := !pr.routes.isEmpty

/-- The catch-all fallback (routing/mod.rs, `enum Fallback`): still the
library default, an explicitly configured service, or a handler template
awaiting state. -/
inductive Fallback where
  | Default (route : Route) : Fallback
  | Service (route : Route) : Fallback
  | BoxedHandler (handler : BoxedIntoRoute) : Fallback
deriving DecidableEq, Repr

/-- Fallback reconciliation (routing/mod.rs, `Fallback::merge`): when
both are still the default the second one is kept; otherwise the
non-default one is kept; two non-default fallbacks cannot merge. -/
def Fallback.merge : Fallback → Fallback → Option Fallback
  | .Default _, .Default r => some (.Default r)
  | .Default _, pick => some pick
  | pick, .Default _ => some pick
  | _, _ => none

/-- Middleware wrapping of a fallback (routing/mod.rs, `Fallback::map`,
instantiated at `route.layer(middleware)` as in `Router::layer`). -/
def Fallback.map (f : Fallback) (layerTag : Nat) : Fallback :=
  match f with
  | .Default route => .Default (.layer layerTag route)
  | .Service route => .Service (.layer layerTag route)
  | .BoxedHandler handler => .BoxedHandler (.map layerTag handler)

/-- Eager state binding of a fallback (routing/mod.rs,
`Fallback::with_state`): a handler template becomes a concrete bound
service; the other variants are unchanged. -/
def Fallback.with_state (f : Fallback) (state : Nat) : Fallback :=
  match f with
  | .Default route => .Default route
  | .Service route => .Service route
  | .BoxedHandler handler => .Service (handler.into_route state)

/-- Invoking the catch-all fallback always produces a response
(routing/mod.rs, `Fallback::call_with_state`); a still-unbound handler
template is bound to the request-time state on the spot. -/
def Fallback.call_with_state (f : Fallback) (state : Nat) : Response :=
  match f with
  | .Default route => route.call
  | .Service route => route.call
  | .BoxedHandler handler => (handler.into_route state).call

/-- True when the fallback is still the library default. -/
def Fallback.isDefault : Fallback → Bool
  | .Default _ => true
  | _ => false

/-- True when the fallback is a handler template still awaiting state. -/
def Fallback.isBoxedHandler : Fallback → Bool
  | .BoxedHandler _ => true
  | _ => false

/-- Result of a construction operation: the built value, or a Rust panic
carrying the panic message (`panic_on_err!` and the explicit `panic!`
calls in routing/mod.rs). -/
inductive Outcome (α : Type) where
  | ok (value : α) : Outcome α
  | panicked (msg : String) : Outcome α
deriving DecidableEq, Repr

/-- The router (routing/mod.rs, `struct RouterInner`): normal path
matcher, fallback path matcher, default-fallback flag and catch-all
fallback.  The `Arc` wrapper and `Clone` plumbing of the builder algebra
are elided: every operation consumes the old value and returns a new
one. -/
structure Router where
  path_router : PathRouter
  fallback_router : PathRouter
  default_fallback : Bool
  catch_all_fallback : Fallback
deriving DecidableEq, Repr

/-- Source `Router::new`: empty route table, empty fallback matcher, the
default-fallback flag set, and `Fallback::Default(Route::new(NotFound))`
as catch-all. -/
def Router.new : Router :=
  { path_router := { routes := [], fallbackRoot := none },
    fallback_router := PathRouter.new_fallback,
    default_fallback := true,
    catch_all_fallback := .Default .notFound }

/-- Source `Router::route`: insert one pattern; a conflict reported by the path
matcher as a result value is turned into a panic by `panic_on_err!`. -/
def Router.route (r : Router) (path : Pattern) (method_router : MethodRouter) :
    Outcome Router :=
  match r.path_router.route path method_router with
  | .ok pr => .ok { r with path_router := pr }
  | .error e => .panicked e

/-- The service argument of `Router::route_service`: via `try_downcast`
the code distinguishes an attempt to register a whole `Router` from any
other service. -/
inductive ServiceArg where
  | router (r : Router) : ServiceArg
  | service (svc : Route) : ServiceArg
deriving DecidableEq, Repr

/-- Source `Router::route_service`: registering a `Router` as a route service
panics with a message directing the caller to `nest`; any other service
is registered normally (conflicts again panic via `panic_on_err!`). -/
def Router.route_service (r : Router) (path : Pattern) (svc : ServiceArg) :
    Outcome Router :=
  match svc with
  | .router _ =>
    .panicked "Invalid route: `Router::route_service` cannot be used with `Router`s. Use `Router::nest` instead"
  | .service s =>
    match r.path_router.route_service path s with
    | .ok pr => .ok { r with path_router := pr }
    | .error e => .panicked e

/-- Source `Router::nest`: nest the other router's route table under the prefix;
nest its fallback matcher the same way only when the other router carries
a non-default fallback; the other router's catch-all fallback is
intentionally discarded. -/
def Router.nest (r : Router) (path : Pattern) (other : Router) : Outcome Router :=
  match r.path_router.nest path other.path_router with
  | .error e => .panicked e
  | .ok pr =>
    if other.default_fallback then
      .ok { r with path_router := pr }
    else
      match r.fallback_router.nest path other.fallback_router with
      | .error e => .panicked e
      | .ok fr => .ok { r with path_router := pr, fallback_router := fr }

/-- Panic message used when merging the two fallback matchers
unexpectedly fails (routing/mod.rs, `PANIC_MSG`). -/
def mergePanicMsg : String :=
  "Failed to merge fallbacks. This is a bug in axum. Please file an issue"

/-- Panic message for merging two routers that both carry a custom
fallback. -/
def mergeFallbackMsg : String :=
  "Cannot merge two `Router`s that both have a fallback"

/-- Source `Router::merge`: union the route tables, then reconcile the fallback
matchers by the four-case table on the two default-fallback flags, then
merge the catch-all fallbacks.  In the mixed case the custom side's
fallback matcher absorbs the default side's; two custom fallbacks
panic. -/
def Router.merge (r other : Router) : Outcome Router :=
  match r.path_router.merge other.path_router with
  | .error e => .panicked e
  | .ok pr =>
    let step : Outcome (PathRouter × Bool) :=
      match r.default_fallback, other.default_fallback with
      | true, true =>
        match r.fallback_router.merge other.fallback_router with
        | .ok fr => .ok (fr, true)
        | .error _ => .panicked mergePanicMsg
      | true, false =>
        match r.fallback_router.merge other.fallback_router with
        | .ok fr => .ok (fr, false)
        | .error _ => .panicked mergePanicMsg
      | false, true =>
        match other.fallback_router.merge r.fallback_router with
        | .ok fr => .ok (fr, false)
        | .error _ => .panicked mergePanicMsg
      | false, false => .panicked mergeFallbackMsg
    match step with
    | .panicked e => .panicked e
    | .ok (fr, flag) =>
      match r.catch_all_fallback.merge other.catch_all_fallback with
      | none => .panicked mergeFallbackMsg
      | some ca =>
        .ok { path_router := pr, fallback_router := fr,
              default_fallback := flag, catch_all_fallback := ca }

/-- Source `Router::layer`: wrap every endpoint of both matchers and the
catch-all fallback with the middleware. -/
def Router.layer (r : Router) (layerTag : Nat) : Router :=
  { path_router := r.path_router.layer layerTag,
    fallback_router := r.fallback_router.layer layerTag,
    default_fallback := r.default_fallback,
    catch_all_fallback := r.catch_all_fallback.map layerTag }

/-- Source `Router::route_layer`: like `layer` but only the normal path matcher
is wrapped; the fallback matcher and the catch-all fallback are reused
unchanged. -/
def Router.route_layer (r : Router) (layerTag : Nat) : Router :=
  { path_router := r.path_router.route_layer layerTag,
    fallback_router := r.fallback_router,
    default_fallback := r.default_fallback,
    catch_all_fallback := r.catch_all_fallback }

/-- Source `Router::fallback_endpoint`: install the endpoint as the fallback
matcher's custom fallback and clear the default-fallback flag. -/
def Router.fallback_endpoint (r : Router) (e : Endpoint) : Router :=
  { r with fallback_router := r.fallback_router.set_fallback e,
           default_fallback := false }

/-- Source `Router::fallback`: store the handler template as catch-all and
install `any(handler)` as the fallback matcher's custom fallback. -/
def Router.fallback (r : Router) (h : Nat) : Router :=
  ({ r with catch_all_fallback := .BoxedHandler (.fromHandler h) }).fallback_endpoint
    (.methodRouter (any h))

/-- Source `Router::fallback_service`: store the service as catch-all and as the
fallback matcher's custom fallback. -/
def Router.fallback_service (r : Router) (svc : Route) : Router :=
  ({ r with catch_all_fallback := .Service svc }).fallback_endpoint (.route svc)

/-- Source `Router::with_state`: eagerly bind the state into both matchers and
the catch-all fallback. -/
def Router.with_state (r : Router) (state : Nat) : Router :=
  { path_router := r.path_router.with_state state,
    fallback_router := r.fallback_router.with_state state,
    default_fallback := r.default_fallback,
    catch_all_fallback := r.catch_all_fallback.with_state state }

/-- Source `Router::call_with_state`: three-tier dispatch.  The normal path
matcher is consulted first and its result returned on a hit; on a miss
the fallback matcher; and only when both miss, the catch-all fallback,
which always produces a response. -/
def Router.call_with_state (r : Router) (path : ReqPath) (state : Nat) : Response :=
  match r.path_router.call_with_state path state with
  | some res => res
  | none =>
    match r.fallback_router.call_with_state path state with
    | some res => res
    | none => r.catch_all_fallback.call_with_state state

/-- Source `Router::has_routes`: true if at least one route was added. -/
def Router.has_routes (r : Router) : Bool := r.path_router.has_routes

/-- Dispatch through the result of a construction operation; `none` when
construction panicked. -/
def Outcome.dispatch (o : Outcome Router) (path : ReqPath) (state : Nat) : Option Response :=
  match o with
  | .ok r => some (r.call_with_state path state)
  | .panicked _ => none

/-- Extract the built router from a construction outcome, with a default
for the panic case. -/
def Outcome.getD {α : Type} (o : Outcome α) (d : α) : α :=
  match o with
  | .ok v => v
  | .panicked _ => d

/-- No state-requiring template remains anywhere in the matcher. -/
def PathRouter.noTemplates (pr : PathRouter) : Bool :=
  (pr.routes.all fun pe => pe.2.isRoute) &&
    (match pr.fallbackRoot with
     | some e => e.isRoute
     | none => true)

/-- No state-requiring template remains anywhere in the router. -/
def Router.noTemplates (r : Router) : Bool :=
  r.path_router.noTemplates && r.fallback_router.noTemplates &&
    !r.catch_all_fallback.isBoxedHandler

/-- A route table is conflict-free when no two registered patterns share
a shape (the spec's "structurally identical after normalization"
criterion). -/
abbrev shapesNodup (routes : List (Pattern × Endpoint)) : Prop :=
  (routes.map fun pe => patShape pe.1).Nodup

/-! ### Lemmas about most-specific-first matching -/

theorem minKey_lcomm : ∀ (a b : ShapeKey) (c : Option ShapeKey),
    minKey a (minKey b c) = minKey b (minKey a c) := by
  intro a b c
  cases c <;> simp [minKey, min_comm, min_left_comm]

theorem bestShape_perm {l₁ l₂ : List ShapeKey} (h : l₁.Perm l₂) :
    bestShape l₁ = bestShape l₂ :=
  @List.Perm.foldr_eq _ _ minKey _ _ ⟨minKey_lcomm⟩ h none

theorem find?_congr_of_unique {α : Type} (p : α → Bool) {l₁ l₂ : List α}
    (h : l₁.Perm l₂)
    (huniq : ∀ a ∈ l₁, ∀ b ∈ l₁, p a = true → p b = true → a = b) :
    l₁.find? p = l₂.find? p := by
  cases h₁ : l₁.find? p with
  | none =>
    cases h₂ : l₂.find? p with
    | none => rfl
    | some b =>
      have hb := List.mem_of_find?_eq_some h₂
      have hpb := List.find?_some h₂
      exact absurd hpb (List.find?_eq_none.mp h₁ b (h.mem_iff.mpr hb))
  | some a =>
    have ha := List.mem_of_find?_eq_some h₁
    have hpa := List.find?_some h₁
    cases h₂ : l₂.find? p with
    | none =>
      exact absurd hpa (List.find?_eq_none.mp h₂ a (h.mem_iff.mp ha))
    | some b =>
      have hb : b ∈ l₁ := h.mem_iff.mpr (List.mem_of_find?_eq_some h₂)
      have hpb := List.find?_some h₂
      exact congrArg some (huniq a ha b hb hpa hpb)

theorem matchRoutes_perm {routes₁ routes₂ : List (Pattern × Endpoint)} (path : ReqPath)
    (h : routes₁.Perm routes₂) (hnd : shapesNodup routes₁) :
    matchRoutes routes₁ path = matchRoutes routes₂ path := by
  have hcand := h.filter fun pe => segsMatch pe.1 path
  have hkeys := hcand.map fun pe => patShape pe.1
  have hbest := bestShape_perm hkeys
  unfold shapesNodup at hnd
  simp only [matchRoutes]
  rw [hbest]
  cases bestShape
      ((routes₂.filter fun pe => segsMatch pe.1 path).map fun pe => patShape pe.1) with
  | none => rfl
  | some k =>
    refine find?_congr_of_unique _ hcand ?_
    intro a ha b hb hpa hpb
    have ha' := List.mem_of_mem_filter ha
    have hb' := List.mem_of_mem_filter hb
    have hka : patShape a.1 = k := by simpa using hpa
    have hkb : patShape b.1 = k := by simpa using hpb
    exact List.inj_on_of_nodup_map hnd ha' hb' (hka.trans hkb.symm)

theorem matchRoutes_map (f : Endpoint → Endpoint)
    (routes : List (Pattern × Endpoint)) (path : ReqPath) :
    matchRoutes (routes.map fun pe => (pe.1, f pe.2)) path
      = (matchRoutes routes path).map fun pe => (pe.1, f pe.2) := by
  have hfil : (routes.map fun pe => (pe.1, f pe.2)).filter (fun pe => segsMatch pe.1 path)
      = (routes.filter fun pe => segsMatch pe.1 path).map fun pe => (pe.1, f pe.2) :=
    List.filter_map _ _
  have hkeys : ((routes.filter fun pe => segsMatch pe.1 path).map
        fun pe => (pe.1, f pe.2)).map (fun pe => patShape pe.1)
      = (routes.filter fun pe => segsMatch pe.1 path).map fun pe => patShape pe.1 :=
    List.map_map _ _ _
  simp only [matchRoutes, hfil, hkeys]
  cases bestShape ((routes.filter fun pe => segsMatch pe.1 path).map
      fun pe => patShape pe.1) with
  | none => rfl
  | some k =>
    show ((routes.filter fun pe => segsMatch pe.1 path).map
          fun pe => (pe.1, f pe.2)).find? (fun pe => patShape pe.1 == k)
      = Option.map (fun pe => (pe.1, f pe.2))
          ((routes.filter fun pe => segsMatch pe.1 path).find? fun pe => patShape pe.1 == k)
    rw [List.find?_map]
    rfl

theorem matchEndpoint_map (pr : PathRouter) (f : Endpoint → Endpoint) (path : ReqPath) :
    PathRouter.matchEndpoint
        { routes := pr.routes.map fun pe => (pe.1, f pe.2),
          fallbackRoot := pr.fallbackRoot.map f } path
      = (pr.matchEndpoint path).map f := by
  simp only [PathRouter.matchEndpoint]
  rw [matchRoutes_map]
  cases matchRoutes pr.routes path with
  | some pe => rfl
  | none =>
    by_cases hp : path.isEmpty <;> simp [hp]

/-! ### Lemmas about route-table insertion and union -/

theorem insert_ok {pr : PathRouter} {pat : Pattern} {e : Endpoint} {pr' : PathRouter}
    (h : pr.insert pat e = .ok pr') :
    pr'.routes = pr.routes ++ [(pat, e)] ∧ pr'.fallbackRoot = pr.fallbackRoot ∧
      ∀ pe ∈ pr.routes, patShape pe.1 ≠ patShape pat := by
  simp only [PathRouter.insert] at h
  split at h
  · exact Except.noConfusion h
  · rename_i hguard
    cases h
    refine ⟨rfl, rfl, ?_⟩
    intro pe hpe heq
    exact hguard (List.any_eq_true.mpr ⟨pe, hpe, by simpa using heq⟩)

theorem insert_of_notmem {pr : PathRouter} {pat : Pattern} {e : Endpoint}
    (h : ∀ pe ∈ pr.routes, patShape pe.1 ≠ patShape pat) :
    pr.insert pat e
      = .ok { routes := pr.routes ++ [(pat, e)], fallbackRoot := pr.fallbackRoot } := by
  simp only [PathRouter.insert]
  rw [if_neg]
  intro hany
  obtain ⟨pe, hpe, hq⟩ := List.any_eq_true.mp hany
  exact h pe hpe (by simpa using hq)

theorem insertAll_ok {l : List (Pattern × Endpoint)} :
    ∀ {pr pr' : PathRouter}, pr.insertAll l = .ok pr' →
      pr'.routes = pr.routes ++ l ∧ pr'.fallbackRoot = pr.fallbackRoot := by
  induction l with
  | nil =>
    intro pr pr' h
    simp only [PathRouter.insertAll] at h
    cases h
    simp
  | cons a rest ih =>
    intro pr pr' h
    simp only [PathRouter.insertAll] at h
    cases hins : pr.insert a.1 a.2 with
    | error e =>
      rw [hins] at h
      exact Except.noConfusion h
    | ok pm =>
      simp only [hins] at h
      obtain ⟨h1, h2, _⟩ := insert_ok hins
      obtain ⟨h3, h4⟩ := ih h
      constructor
      · rw [h3, h1]
        simp
      · rw [h4, h2]

theorem insertAll_of_nodup {l : List (Pattern × Endpoint)} :
    ∀ {pr : PathRouter},
      (((pr.routes ++ l).map fun pe => patShape pe.1).Nodup) →
      pr.insertAll l = .ok { routes := pr.routes ++ l, fallbackRoot := pr.fallbackRoot } := by
  induction l with
  | nil =>
    intro pr _
    simp [PathRouter.insertAll]
  | cons a rest ih =>
    intro pr hnd
    have hne : ∀ pe ∈ pr.routes, patShape pe.1 ≠ patShape a.1 := by
      intro pe hpe heq
      rw [List.map_append, List.nodup_append] at hnd
      have h1 : patShape a.1 ∈ pr.routes.map fun pe => patShape pe.1 :=
        List.mem_map.mpr ⟨pe, hpe, heq⟩
      have h2 : patShape a.1 ∈ (a :: rest).map fun pe => patShape pe.1 := by
        simp
      exact List.disjoint_left.mp hnd.2.2 h1 h2
    have hgoal : pr.routes ++ a :: rest = (pr.routes ++ [(a.1, a.2)]) ++ rest := by
      simp
    rw [hgoal] at hnd
    simp only [PathRouter.insertAll, insert_of_notmem hne, hgoal]
    exact ih hnd

theorem insertAll_nodup {l : List (Pattern × Endpoint)} :
    ∀ {pr pr' : PathRouter}, shapesNodup pr.routes →
      pr.insertAll l = .ok pr' → shapesNodup pr'.routes := by
  induction l with
  | nil =>
    intro pr pr' hnd h
    simp only [PathRouter.insertAll] at h
    cases h
    exact hnd
  | cons a rest ih =>
    intro pr pr' hnd h
    simp only [PathRouter.insertAll] at h
    cases hins : pr.insert a.1 a.2 with
    | error e =>
      rw [hins] at h
      exact Except.noConfusion h
    | ok pm =>
      simp only [hins] at h
      obtain ⟨h1, _, h3⟩ := insert_ok hins
      refine ih ?_ h
      unfold shapesNodup at hnd ⊢
      rw [h1, List.map_append, List.nodup_append]
      refine ⟨hnd, by simp, ?_⟩
      rw [List.disjoint_left]
      intro x hx hx2
      simp only [List.map_cons, List.map_nil, List.mem_singleton] at hx2
      obtain ⟨pe, hpe, hpx⟩ := List.mem_map.mp hx
      exact h3 pe hpe (by rw [hpx, hx2])

theorem pathRouter_merge_ok {pr other merged : PathRouter}
    (h : pr.merge other = .ok merged) :
    merged.routes = pr.routes ++ other.routes ∧
      merged.fallbackRoot
        = (match other.fallbackRoot with
           | some e => some e
           | none => pr.fallbackRoot) := by
  simp only [PathRouter.merge] at h
  cases hins : pr.insertAll other.routes with
  | error e =>
    rw [hins] at h
    exact Except.noConfusion h
  | ok pm =>
    simp only [hins] at h
    obtain ⟨h1, h2⟩ := insertAll_ok hins
    cases h
    exact ⟨h1, by rw [h2]⟩

theorem pathRouter_merge_nodup {pr other merged : PathRouter}
    (hnd : shapesNodup pr.routes) (h : pr.merge other = .ok merged) :
    shapesNodup merged.routes := by
  simp only [PathRouter.merge] at h
  cases hins : pr.insertAll other.routes with
  | error e =>
    rw [hins] at h
    exact Except.noConfusion h
  | ok pm =>
    simp only [hins] at h
    cases h
    show shapesNodup pm.routes
    exact insertAll_nodup hnd hins

theorem call_with_state_congr {r₁ r₂ : Router}
    (hnd : shapesNodup r₁.path_router.routes)
    (hfbnd : shapesNodup r₁.fallback_router.routes)
    (hpath : r₁.path_router.routes.Perm r₂.path_router.routes)
    (hfb : r₁.fallback_router.routes.Perm r₂.fallback_router.routes)
    (hproot : r₁.path_router.fallbackRoot = r₂.path_router.fallbackRoot)
    (hroot : r₁.fallback_router.fallbackRoot = r₂.fallback_router.fallbackRoot)
    (hca : r₁.catch_all_fallback = r₂.catch_all_fallback) :
    ∀ path state, r₁.call_with_state path state = r₂.call_with_state path state := by
  intro path state
  have h1 : r₁.path_router.matchEndpoint path = r₂.path_router.matchEndpoint path := by
    simp only [PathRouter.matchEndpoint]
    rw [matchRoutes_perm path hpath hnd, hproot]
  have h2 : r₁.fallback_router.matchEndpoint path = r₂.fallback_router.matchEndpoint path := by
    simp only [PathRouter.matchEndpoint]
    rw [matchRoutes_perm path hfb hfbnd, hroot]
  simp only [Router.call_with_state, PathRouter.call_with_state, h1, h2, hca]

/-! ### Claim theorems -/

/-- C1: for every request dispatched through the `Router`, resolution
proceeds in exactly three tiers with short-circuit on first success: a
hit in the normal path matcher is returned without consulting the other
tiers; on a miss the fallback path matcher is consulted; and only when
both miss is the catch-all fallback invoked, which (being a total
function into `Response`) always produces a response. -/
theorem C1_dispatch_three_tiers (r : Router) (path : ReqPath) (state : Nat) :
    (∀ res, r.path_router.call_with_state path state = some res →
      r.call_with_state path state = res) ∧
    (r.path_router.call_with_state path state = none →
      ∀ res, r.fallback_router.call_with_state path state = some res →
        r.call_with_state path state = res) ∧
    (r.path_router.call_with_state path state = none →
      r.fallback_router.call_with_state path state = none →
      r.call_with_state path state = r.catch_all_fallback.call_with_state state) := by
  refine ⟨?_, ?_, ?_⟩
  · intro res h
    simp [Router.call_with_state, h]
  · intro h1 res h2
    simp [Router.call_with_state, h1, h2]
  · intro h1 h2
    simp [Router.call_with_state, h1, h2]

/-- Witness for C1 at a freshly constructed router and a concrete
unmatched request: both matchers miss and dispatch returns the catch-all
response. -/
theorem C1_dispatch_three_tiers_witness :
    Router.new.path_router.call_with_state ["missing"] 0 = none ∧
    Router.new.fallback_router.call_with_state ["missing"] 0 = none ∧
    Router.new.call_with_state ["missing"] 0
      = Router.new.catch_all_fallback.call_with_state 0 :=
  ⟨by decide, by decide,
    (C1_dispatch_three_tiers Router.new ["missing"] 0).2.2 (by decide) (by decide)⟩

/-- C3 counterexample: a construction conflict does not propagate to the
caller of the public composition function as a result value — merging
two routers that both configured a custom fallback panics. -/
theorem C3_counterexample_merge_panics :
    Router.merge (Router.new.fallback 1) (Router.new.fallback 2)
      = .panicked "Cannot merge two `Router`s that both have a fallback" := by
  decide

/-- C3 amended: construction conflicts are produced as result values by
the path-matcher-level composition functions, and the public `Router`
`route`, `nest` and `merge` convenience methods convert any such error
result into a panic via `panic_on_err!`, the panic message being exactly
the propagated error value. -/
theorem C3_amended_conflicts_panic (r other : Router) (path : Pattern) (mr : MethodRouter) :
    (∀ e, r.path_router.route path mr = .error e → Router.route r path mr = .panicked e) ∧
    (∀ e, r.path_router.nest path other.path_router = .error e →
      Router.nest r path other = .panicked e) ∧
    (∀ e, r.path_router.merge other.path_router = .error e →
      Router.merge r other = .panicked e) := by
  refine ⟨?_, ?_, ?_⟩
  · intro e h
    simp [Router.route, h]
  · intro e h
    simp [Router.nest, h]
  · intro e h
    simp [Router.merge, h]

/-- Witness for the amended C3: a concrete duplicate-route conflict is an
error value at the path-matcher level and a panic at the `Router` level. -/
theorem C3_amended_conflicts_panic_witness :
    (((Router.new.route [Seg.lit "a"] (any 1)).getD Router.new).path_router.route
        [Seg.lit "a"] (any 2)
      = .error "Invalid route: conflict with previously registered route") ∧
    (Router.route ((Router.new.route [Seg.lit "a"] (any 1)).getD Router.new)
        [Seg.lit "a"] (any 2)
      = .panicked "Invalid route: conflict with previously registered route") :=
  ⟨by rfl,
    (C3_amended_conflicts_panic _ Router.new [Seg.lit "a"] (any 2)).1 _ (by rfl)⟩

/-- C4: `nest` nests the other router's fallback matcher under the
prefix into the receiver's fallback matcher exactly when the other
router carries a non-default fallback, and the other router's catch-all
fallback is always discarded, never inherited. -/
theorem C4_nest_fallback_propagation (r other : Router) (path : Pattern) :
    ∀ M, Router.nest r path other = .ok M →
      M.catch_all_fallback = r.catch_all_fallback ∧
      M.default_fallback = r.default_fallback ∧
      (other.default_fallback = true → M.fallback_router = r.fallback_router) ∧
      (other.default_fallback = false →
        r.fallback_router.nest path other.fallback_router = .ok M.fallback_router) := by
  intro M h
  simp only [Router.nest] at h
  cases hpn : r.path_router.nest path other.path_router with
  | error e =>
    rw [hpn] at h
    exact Outcome.noConfusion h
  | ok pr =>
    simp only [hpn] at h
    cases hdf : other.default_fallback with
    | true =>
      rw [hdf] at h
      rw [if_pos rfl] at h
      cases h
      exact ⟨rfl, rfl, fun _ => rfl, fun hc => Bool.noConfusion hc⟩
    | false =>
      rw [hdf] at h
      rw [if_neg Bool.false_ne_true] at h
      cases hfn : r.fallback_router.nest path other.fallback_router with
      | error e =>
        rw [hfn] at h
        exact Outcome.noConfusion h
      | ok fr =>
        simp only [hfn] at h
        cases h
        exact ⟨rfl, rfl, fun hc => Bool.noConfusion hc, fun _ => rfl⟩

/-- Witness for C4: nesting a sub-router that carries a custom fallback
keeps the receiver's catch-all and nests the sub-router's fallback
matcher. -/
theorem C4_nest_fallback_propagation_witness :
    (Router.nest Router.new [Seg.lit "api"] (Router.new.fallback 3)
      = .ok ((Router.nest Router.new [Seg.lit "api"] (Router.new.fallback 3)).getD
          Router.new)) ∧
    ((Router.nest Router.new [Seg.lit "api"] (Router.new.fallback 3)).getD
        Router.new).catch_all_fallback = Router.new.catch_all_fallback ∧
    Router.new.fallback_router.nest [Seg.lit "api"] (Router.new.fallback 3).fallback_router
      = .ok ((Router.nest Router.new [Seg.lit "api"] (Router.new.fallback 3)).getD
          Router.new).fallback_router := by
  refine ⟨by decide, ?_, ?_⟩
  · exact ((C4_nest_fallback_propagation Router.new (Router.new.fallback 3)
      [Seg.lit "api"]) _ (by decide)).1
  · exact ((C4_nest_fallback_propagation Router.new (Router.new.fallback 3)
      [Seg.lit "api"]) _ (by decide)).2.2.2 rfl

/-- C5: for a router on which no fallback was ever configured (the
default-fallback flag still set and the catch-all still
`Fallback::Default(Route::new(NotFound))`, as in a freshly constructed
router), every request whose path matches no registered pattern and no
fallback-matcher pattern receives the built-in 404 response from the
catch-all fallback. -/
theorem C5_unconfigured_fallback_404 (r : Router) (path : ReqPath)
    (_hflag : r.default_fallback = true)
    (hca : r.catch_all_fallback = .Default .notFound)
    (h1 : r.path_router.matchEndpoint path = none)
    (h2 : r.fallback_router.matchEndpoint path = none) :
    ∀ state, r.call_with_state path state = Response.notFound := by
  intro state
  simp [Router.call_with_state, PathRouter.call_with_state, h1, h2, hca,
    Fallback.call_with_state, Route.call]

/-- Witness for C5 at the freshly constructed router. -/
theorem C5_unconfigured_fallback_404_witness :
    Router.new.default_fallback = true ∧
    Router.new.catch_all_fallback = .Default .notFound ∧
    Router.new.path_router.matchEndpoint ["nope"] = none ∧
    Router.new.fallback_router.matchEndpoint ["nope"] = none ∧
    Router.new.call_with_state ["nope"] 0 = Response.notFound :=
  ⟨rfl, rfl, by decide, by decide,
    C5_unconfigured_fallback_404 Router.new ["nope"] rfl rfl (by decide) (by decide) 0⟩

/-- C7: `with_state` eagerly converts every state-requiring handler
template (including a handler-shaped catch-all fallback) into a concrete
bound service at the time of the call: no unbound template remains in
the resulting router, and dispatch on it performs no per-request
binding — its responses are independent of the request-time state
argument. -/
theorem C7_with_state_binds_eagerly (r : Router) (state : Nat) :
    (r.with_state state).noTemplates = true ∧
    (∀ h, r.catch_all_fallback = .BoxedHandler h →
      (r.with_state state).catch_all_fallback = .Service (h.into_route state)) ∧
    (∀ path s₁ s₂, (r.with_state state).call_with_state path s₁
        = (r.with_state state).call_with_state path s₂) := by
  have hall : ∀ pr : PathRouter, (pr.with_state state).noTemplates = true := by
    intro pr
    simp only [PathRouter.noTemplates, PathRouter.with_state, Bool.and_eq_true,
      List.all_eq_true]
    constructor
    · intro pe hpe
      obtain ⟨qe, _, rfl⟩ := List.mem_map.mp hpe
      cases hq : qe.2 <;> simp [Endpoint.with_state, Endpoint.isRoute]
    · cases pr.fallbackRoot with
      | none => simp
      | some e => cases e <;> simp [Endpoint.with_state, Endpoint.isRoute]
  have hmatch : ∀ (pr : PathRouter) path, (pr.with_state state).matchEndpoint path
      = (pr.matchEndpoint path).map fun e => e.with_state state := fun pr path =>
    matchEndpoint_map pr (fun e => e.with_state state) path
  refine ⟨?_, ?_, ?_⟩
  · simp only [Router.noTemplates, Router.with_state, Bool.and_eq_true]
    refine ⟨⟨hall _, hall _⟩, ?_⟩
    cases r.catch_all_fallback <;> simp [Fallback.with_state, Fallback.isBoxedHandler]
  · intro h hca
    simp [Router.with_state, Fallback.with_state, hca]
  · intro path s₁ s₂
    simp only [Router.call_with_state, Router.with_state, PathRouter.call_with_state, hmatch]
    cases hm : r.path_router.matchEndpoint path with
    | some e =>
      cases e <;> simp [Endpoint.with_state, Endpoint.call]
    | none =>
      cases hm2 : r.fallback_router.matchEndpoint path with
      | some e =>
        cases e <;> simp [Endpoint.with_state, Endpoint.call]
      | none =>
        cases hca : r.catch_all_fallback <;>
          simp [Fallback.with_state, Fallback.call_with_state]

/-- Witness for C7: binding a concrete state value into a router whose
catch-all is a handler template yields the template bound exactly to
that value. -/
theorem C7_with_state_binds_eagerly_witness :
    ((Router.new.fallback 3).with_state 5).noTemplates = true ∧
    ((Router.new.fallback 3).with_state 5).catch_all_fallback
      = .Service ((BoxedIntoRoute.fromHandler 3).into_route 5) :=
  ⟨(C7_with_state_binds_eagerly (Router.new.fallback 3) 5).1,
    (C7_with_state_binds_eagerly (Router.new.fallback 3) 5).2.1 _ rfl⟩

/-- C8: `route_layer` leaves the fallback path matcher and the catch-all
fallback unchanged, and every request the normal path matcher does not
resolve is dispatched exactly as before the call (the middleware wraps
only endpoints reached through the normal path matcher). -/
theorem C8_route_layer_frame (r : Router) (layerTag : Nat) :
    (r.route_layer layerTag).fallback_router = r.fallback_router ∧
    (r.route_layer layerTag).catch_all_fallback = r.catch_all_fallback ∧
    (∀ path state, r.path_router.matchEndpoint path = none →
      (r.route_layer layerTag).call_with_state path state
        = r.call_with_state path state) := by
  refine ⟨rfl, rfl, ?_⟩
  intro path state h
  have hml : (r.path_router.layer layerTag).matchEndpoint path
      = (r.path_router.matchEndpoint path).map fun e => e.layer layerTag :=
    matchEndpoint_map r.path_router (fun e => e.layer layerTag) path
  simp only [Router.call_with_state, Router.route_layer, PathRouter.route_layer,
    PathRouter.call_with_state, hml, h]
  simp

/-- Witness for C8: a request missing the (single) registered route is
dispatched identically before and after `route_layer`. -/
theorem C8_route_layer_frame_witness :
    ((Router.new.route [Seg.lit "a"] (any 1)).getD Router.new).path_router.matchEndpoint
        ["b"] = none ∧
    (((Router.new.route [Seg.lit "a"] (any 1)).getD Router.new).route_layer 9).call_with_state
        ["b"] 0
      = ((Router.new.route [Seg.lit "a"] (any 1)).getD Router.new).call_with_state ["b"] 0 :=
  ⟨by decide, (C8_route_layer_frame _ 9).2.2 ["b"] 0 (by decide)⟩

/-- C9: `layer` wraps every endpoint stored in the normal path matcher,
every endpoint in the fallback path matcher, and the catch-all fallback
with the middleware, while leaving the matcher topology unchanged: the
same pattern (if any) matches a request before and after the call, and
the matched computation is exactly the wrapped one. -/
theorem C9_layer_wraps_preserving_topology (r : Router) (layerTag : Nat) :
    (r.layer layerTag).path_router.routes
        = (r.path_router.routes.map fun pe => (pe.1, pe.2.layer layerTag)) ∧
    (r.layer layerTag).fallback_router.routes
        = (r.fallback_router.routes.map fun pe => (pe.1, pe.2.layer layerTag)) ∧
    (r.layer layerTag).catch_all_fallback = r.catch_all_fallback.map layerTag ∧
    (∀ path, (matchRoutes (r.layer layerTag).path_router.routes path).map (fun pe => pe.1)
        = (matchRoutes r.path_router.routes path).map fun pe => pe.1) ∧
    (∀ path, (r.layer layerTag).path_router.matchEndpoint path
        = (r.path_router.matchEndpoint path).map fun e => e.layer layerTag) ∧
    (∀ path, (r.layer layerTag).fallback_router.matchEndpoint path
        = (r.fallback_router.matchEndpoint path).map fun e => e.layer layerTag) := by
  refine ⟨rfl, rfl, rfl, ?_, ?_, ?_⟩
  · intro path
    show (matchRoutes (r.path_router.routes.map fun pe => (pe.1, pe.2.layer layerTag))
        path).map (fun pe => pe.1) = _
    rw [matchRoutes_map (fun e => e.layer layerTag), Option.map_map]
    rfl
  · intro path
    exact matchEndpoint_map r.path_router (fun e => e.layer layerTag) path
  · intro path
    exact matchEndpoint_map r.fallback_router (fun e => e.layer layerTag) path

/-- C10: `route_service` panics, with a message directing the caller to
`nest`, whenever the supplied service is itself a `Router`; for any
non-`Router` service whose path does not conflict with a registered one
the registration proceeds normally. -/
theorem C10_route_service_rejects_router (r : Router) (path : Pattern) :
    (∀ sub : Router, r.route_service path (.router sub)
        = .panicked "Invalid route: `Router::route_service` cannot be used with `Router`s. Use `Router::nest` instead") ∧
    (∀ svc : Route,
      (r.path_router.routes.any fun pe => patShape pe.1 == patShape path) = false →
      r.route_service path (.service svc)
        = .ok { r with path_router :=
            { routes := r.path_router.routes ++ [(path, .route svc)],
              fallbackRoot := r.path_router.fallbackRoot } }) := by
  refine ⟨fun sub => rfl, ?_⟩
  intro svc hno
  simp only [Router.route_service, PathRouter.route_service, PathRouter.insert, hno]
  simp

/-- Witness for C10: registering a plain service at a fresh path
succeeds and appends exactly that route. -/
theorem C10_route_service_rejects_router_witness :
    ((Router.new.path_router.routes.any
        fun pe => patShape pe.1 == patShape [Seg.lit "assets"]) = false) ∧
    Router.new.route_service [Seg.lit "assets"] (.service (.svc 9))
      = .ok { Router.new with path_router :=
          { routes := [([Seg.lit "assets"], .route (.svc 9))], fallbackRoot := none } } := by
  refine ⟨by decide, ?_⟩
  have h := (C10_route_service_rejects_router Router.new [Seg.lit "assets"]).2 (.svc 9)
    (by decide)
  simpa using h

/-! ### Fallback-merge helper lemmas -/

theorem isDefault_true {f : Fallback} (h : f.isDefault = true) : ∃ r, f = .Default r := by
  cases f with
  | Default r => exact ⟨r, rfl⟩
  | Service r => exact Bool.noConfusion h
  | BoxedHandler b => exact Bool.noConfusion h

theorem merge_right_custom {f g : Fallback} (hf : f.isDefault = true)
    (hg : g.isDefault = false) : f.merge g = some g := by
  cases f with
  | Default a =>
    cases g with
    | Default b => exact Bool.noConfusion hg
    | Service b => rfl
    | BoxedHandler b => rfl
  | Service a => exact Bool.noConfusion hf
  | BoxedHandler a => exact Bool.noConfusion hf

theorem merge_left_custom {f g : Fallback} (hf : f.isDefault = false)
    (hg : g.isDefault = true) : f.merge g = some f := by
  cases g with
  | Default b =>
    cases f with
    | Default a => exact Bool.noConfusion hf
    | Service a => rfl
    | BoxedHandler a => rfl
  | Service b => exact Bool.noConfusion hg
  | BoxedHandler b => exact Bool.noConfusion hg

theorem fallback_merge_comm {f g : Fallback}
    (hfg : f.isDefault = true → g.isDefault = true → f = g) :
    ∀ {x y : Fallback}, f.merge g = some x → g.merge f = some y → x = y := by
  intro x y hx hy
  cases f with
  | Default a =>
    cases g with
    | Default b =>
      have hab : Fallback.Default a = Fallback.Default b := hfg rfl rfl
      injection hx with hx'
      injection hy with hy'
      rw [← hx', ← hy']
      exact hab.symm
    | Service b =>
      injection hx with hx'
      injection hy with hy'
      rw [← hx', ← hy']
    | BoxedHandler b =>
      injection hx with hx'
      injection hy with hy'
      rw [← hx', ← hy']
  | Service a =>
    cases g with
    | Default b =>
      injection hx with hx'
      injection hy with hy'
      rw [← hx', ← hy']
    | Service b => exact Option.noConfusion hx
    | BoxedHandler b => exact Option.noConfusion hx
  | BoxedHandler a =>
    cases g with
    | Default b =>
      injection hx with hx'
      injection hy with hy'
      rw [← hx', ← hy']
    | Service b => exact Option.noConfusion hx
    | BoxedHandler b => exact Option.noConfusion hx

/-- C2: `merge` reconciles fallbacks by exactly the three-case rule on
the two default-fallback flags: both default keeps the default; exactly
one custom keeps that custom fallback, whose catch-all and
fallback-matcher root govern the merged router; both custom fails (the
merged router therefore never carries more than one custom fallback).
The hypotheses are the construction invariants tying the flag to the
fallback state. -/
theorem C2_merge_fallback_reconciliation (A B : Router)
    (hAdef : A.default_fallback = true →
      A.catch_all_fallback.isDefault = true ∧ A.fallback_router.fallbackRoot = none)
    (hBdef : B.default_fallback = true →
      B.catch_all_fallback.isDefault = true ∧ B.fallback_router.fallbackRoot = none)
    (hAcus : A.default_fallback = false → A.catch_all_fallback.isDefault = false)
    (hBcus : B.default_fallback = false → B.catch_all_fallback.isDefault = false) :
    (A.default_fallback = true → B.default_fallback = true →
      ∀ M, Router.merge A B = .ok M →
        M.default_fallback = true ∧ M.catch_all_fallback.isDefault = true ∧
        M.fallback_router.fallbackRoot = none) ∧
    (A.default_fallback = false → B.default_fallback = true →
      ∀ M, Router.merge A B = .ok M →
        M.default_fallback = false ∧ M.catch_all_fallback = A.catch_all_fallback ∧
        M.fallback_router.fallbackRoot = A.fallback_router.fallbackRoot) ∧
    (A.default_fallback = true → B.default_fallback = false →
      ∀ M, Router.merge A B = .ok M →
        M.default_fallback = false ∧ M.catch_all_fallback = B.catch_all_fallback ∧
        M.fallback_router.fallbackRoot = B.fallback_router.fallbackRoot) ∧
    (A.default_fallback = false → B.default_fallback = false →
      ∀ M, Router.merge A B ≠ .ok M) := by
  refine ⟨?_, ?_, ?_, ?_⟩
  · intro hA hB M h
    obtain ⟨hAca, hAroot⟩ := hAdef hA
    obtain ⟨hBca, hBroot⟩ := hBdef hB
    obtain ⟨ra, hAc⟩ := isDefault_true hAca
    obtain ⟨rb, hBc⟩ := isDefault_true hBca
    simp only [Router.merge, hA, hB] at h
    cases hpm : A.path_router.merge B.path_router with
    | error e =>
      rw [hpm] at h
      exact Outcome.noConfusion h
    | ok pr =>
      simp only [hpm] at h
      cases hfm : A.fallback_router.merge B.fallback_router with
      | error e =>
        simp only [hfm] at h
        exact Outcome.noConfusion h
      | ok fr =>
        simp only [hfm] at h
        rw [hAc, hBc] at h
        simp only [Fallback.merge] at h
        cases h
        refine ⟨rfl, rfl, ?_⟩
        have hr := (pathRouter_merge_ok hfm).2
        simp only [hBroot] at hr
        show fr.fallbackRoot = none
        rw [hr, hAroot]
  · intro hA hB M h
    obtain ⟨hBca, hBroot⟩ := hBdef hB
    have hAca := hAcus hA
    simp only [Router.merge, hA, hB] at h
    cases hpm : A.path_router.merge B.path_router with
    | error e =>
      rw [hpm] at h
      exact Outcome.noConfusion h
    | ok pr =>
      simp only [hpm] at h
      cases hfm : B.fallback_router.merge A.fallback_router with
      | error e =>
        simp only [hfm] at h
        exact Outcome.noConfusion h
      | ok fr =>
        simp only [hfm] at h
        rw [merge_left_custom hAca hBca] at h
        cases h
        refine ⟨rfl, rfl, ?_⟩
        have hr := (pathRouter_merge_ok hfm).2
        show fr.fallbackRoot = A.fallback_router.fallbackRoot
        cases hAr : A.fallback_router.fallbackRoot with
        | some e =>
          simp only [hAr] at hr
          rw [hr]
        | none =>
          simp only [hAr] at hr
          rw [hr, hBroot]
  · intro hA hB M h
    obtain ⟨hAca, hAroot⟩ := hAdef hA
    have hBca := hBcus hB
    simp only [Router.merge, hA, hB] at h
    cases hpm : A.path_router.merge B.path_router with
    | error e =>
      rw [hpm] at h
      exact Outcome.noConfusion h
    | ok pr =>
      simp only [hpm] at h
      cases hfm : A.fallback_router.merge B.fallback_router with
      | error e =>
        simp only [hfm] at h
        exact Outcome.noConfusion h
      | ok fr =>
        simp only [hfm] at h
        rw [merge_right_custom hAca hBca] at h
        cases h
        refine ⟨rfl, rfl, ?_⟩
        have hr := (pathRouter_merge_ok hfm).2
        show fr.fallbackRoot = B.fallback_router.fallbackRoot
        cases hBr : B.fallback_router.fallbackRoot with
        | some e =>
          simp only [hBr] at hr
          rw [hr]
        | none =>
          simp only [hBr] at hr
          rw [hr, hAroot]
  · intro hA hB M h
    simp only [Router.merge, hA, hB] at h
    cases hpm : A.path_router.merge B.path_router with
    | error e =>
      rw [hpm] at h
      exact Outcome.noConfusion h
    | ok pr =>
      simp only [hpm] at h
      exact Outcome.noConfusion h

/-- Witness for C2: merging a router with a configured fallback into a
fresh one keeps the configured fallback and clears the flag. -/
theorem C2_merge_fallback_reconciliation_witness :
    ((Router.new.fallback 3).default_fallback = false ∧
      Router.new.default_fallback = true) ∧
    (Router.merge (Router.new.fallback 3) Router.new
      = .ok ((Router.merge (Router.new.fallback 3) Router.new).getD Router.new)) ∧
    ((Router.merge (Router.new.fallback 3) Router.new).getD
        Router.new).default_fallback = false ∧
    ((Router.merge (Router.new.fallback 3) Router.new).getD
        Router.new).catch_all_fallback = (Router.new.fallback 3).catch_all_fallback := by
  refine ⟨⟨rfl, rfl⟩, by decide, ?_, ?_⟩
  · exact ((C2_merge_fallback_reconciliation (Router.new.fallback 3) Router.new
      (by decide) (by decide) (by decide) (by decide)).2.1 rfl rfl _ (by decide)).1
  · exact ((C2_merge_fallback_reconciliation (Router.new.fallback 3) Router.new
      (by decide) (by decide) (by decide) (by decide)).2.1 rfl rfl _ (by decide)).2.1

/-- C6 counterexample: with the empty (hence conflict-free) route
tables of `Router::new().layer(7)` and `Router::new()`, the two merge
orders both succeed yet dispatch the same request to different
responses: `Fallback::merge` keeps the second router's default
catch-all, so the layered default 404 of the first router is dropped in
one order and kept in the other.  This also refutes the
`merge(A, empty) == A` identity for such an `A`. -/
theorem C6_counterexample_merge_not_commutative :
    (Router.merge (Router.new.layer 7) Router.new).dispatch ["x"] 0
        = some Response.notFound ∧
    (Router.merge Router.new (Router.new.layer 7)).dispatch ["x"] 0
        = some (Response.wrapped 7 Response.notFound) ∧
    (Router.merge (Router.new.layer 7) Router.new).dispatch ["x"] 0
        ≠ (Router.merge Router.new (Router.new.layer 7)).dispatch ["x"] 0 :=
  ⟨by decide, by decide, by decide⟩

/-- C6 amended: `merge` is commutative with respect to final dispatch
results for conflict-free routers provided that, when both routers still
carry a default catch-all fallback, the two default catch-alls are equal
(this fails for example when one of them was layered); and
`merge(A, empty)` is exactly `A` provided `A`'s catch-all is either a
custom fallback or the unmodified built-in `Default(NotFound)`.  The
remaining hypotheses are construction invariants of routers built by
the composition algebra. -/
theorem C6_amended_merge_comm_and_identity (A B : Router)
    (hA : shapesNodup A.path_router.routes)
    (hAf : shapesNodup A.fallback_router.routes)
    (hBf : shapesNodup B.fallback_router.routes)
    (hAproot : A.path_router.fallbackRoot = none)
    (hBproot : B.path_router.fallbackRoot = none)
    (hAroot : A.default_fallback = true → A.fallback_router.fallbackRoot = none)
    (hBroot : B.default_fallback = true → B.fallback_router.fallbackRoot = none)
    (hca : A.catch_all_fallback.isDefault = true → B.catch_all_fallback.isDefault = true →
      A.catch_all_fallback = B.catch_all_fallback)
    (hid : A.catch_all_fallback = .Default .notFound ∨
      A.catch_all_fallback.isDefault = false) :
    (∀ M₁ M₂, Router.merge A B = .ok M₁ → Router.merge B A = .ok M₂ →
      ∀ path state, M₁.call_with_state path state = M₂.call_with_state path state) ∧
    Router.merge A Router.new = .ok A := by
  constructor
  · intro M₁ M₂ h₁ h₂ path state
    simp only [Router.merge] at h₁ h₂
    cases hpm₁ : A.path_router.merge B.path_router with
    | error e =>
      rw [hpm₁] at h₁
      exact Outcome.noConfusion h₁
    | ok pr₁ =>
    cases hpm₂ : B.path_router.merge A.path_router with
    | error e =>
      rw [hpm₂] at h₂
      exact Outcome.noConfusion h₂
    | ok pr₂ =>
    simp only [hpm₁] at h₁
    simp only [hpm₂] at h₂
    obtain ⟨hpr₁, hprr₁⟩ := pathRouter_merge_ok hpm₁
    obtain ⟨hpr₂, hprr₂⟩ := pathRouter_merge_ok hpm₂
    have hnd₁ : shapesNodup pr₁.routes := pathRouter_merge_nodup hA hpm₁
    have hpperm : pr₁.routes.Perm pr₂.routes := by
      rw [hpr₁, hpr₂]
      exact List.perm_append_comm
    have hpnone₁ : pr₁.fallbackRoot = none := by
      rw [hprr₁, hBproot, hAproot]
    have hpnone₂ : pr₂.fallbackRoot = none := by
      rw [hprr₂, hAproot, hBproot]
    cases hAd : A.default_fallback with
    | true =>
      cases hBd : B.default_fallback with
      | true =>
        simp only [hAd, hBd] at h₁ h₂
        cases hfm₁ : A.fallback_router.merge B.fallback_router with
        | error e =>
          simp only [hfm₁] at h₁
          exact Outcome.noConfusion h₁
        | ok fr₁ =>
        cases hfm₂ : B.fallback_router.merge A.fallback_router with
        | error e =>
          simp only [hfm₂] at h₂
          exact Outcome.noConfusion h₂
        | ok fr₂ =>
        simp only [hfm₁] at h₁
        simp only [hfm₂] at h₂
        cases hcm₁ : A.catch_all_fallback.merge B.catch_all_fallback with
        | none =>
          simp only [hcm₁] at h₁
          exact Outcome.noConfusion h₁
        | some ca₁ =>
        cases hcm₂ : B.catch_all_fallback.merge A.catch_all_fallback with
        | none =>
          simp only [hcm₂] at h₂
          exact Outcome.noConfusion h₂
        | some ca₂ =>
        simp only [hcm₁] at h₁
        simp only [hcm₂] at h₂
        cases h₁
        cases h₂
        have hfnd₁ : shapesNodup fr₁.routes := pathRouter_merge_nodup hAf hfm₁
        have hfperm : fr₁.routes.Perm fr₂.routes := by
          rw [(pathRouter_merge_ok hfm₁).1, (pathRouter_merge_ok hfm₂).1]
          exact List.perm_append_comm
        have hfr₁ : fr₁.fallbackRoot = none := by
          have := (pathRouter_merge_ok hfm₁).2
          rw [hBroot hBd] at this
          rw [this, hAroot hAd]
        have hfr₂ : fr₂.fallbackRoot = none := by
          have := (pathRouter_merge_ok hfm₂).2
          rw [hAroot hAd] at this
          rw [this, hBroot hBd]
        have hcaeq : ca₁ = ca₂ := fallback_merge_comm hca hcm₁ hcm₂
        exact call_with_state_congr hnd₁ hfnd₁ hpperm hfperm
          (hpnone₁.trans hpnone₂.symm) (hfr₁.trans hfr₂.symm) hcaeq path state
      | false =>
        simp only [hAd, hBd] at h₁ h₂
        cases hfm₁ : A.fallback_router.merge B.fallback_router with
        | error e =>
          simp only [hfm₁] at h₁
          exact Outcome.noConfusion h₁
        | ok fr₁ =>
        cases hcm₁ : A.catch_all_fallback.merge B.catch_all_fallback with
        | none =>
          simp only [hfm₁, hcm₁] at h₁
          exact Outcome.noConfusion h₁
        | some ca₁ =>
        cases hcm₂ : B.catch_all_fallback.merge A.catch_all_fallback with
        | none =>
          simp only [hfm₁, hcm₂] at h₂
          exact Outcome.noConfusion h₂
        | some ca₂ =>
        simp only [hfm₁, hcm₁] at h₁
        simp only [hfm₁, hcm₂] at h₂
        cases h₁
        cases h₂
        have hfnd₁ : shapesNodup fr₁.routes := pathRouter_merge_nodup hAf hfm₁
        have hcaeq : ca₁ = ca₂ := fallback_merge_comm hca hcm₁ hcm₂
        refine call_with_state_congr ?_ ?_ ?_ ?_ ?_ ?_ ?_ path state
        · exact hnd₁
        · exact hfnd₁
        · exact hpperm
        · exact List.Perm.refl _
        · exact hpnone₁.trans hpnone₂.symm
        · rfl
        · exact hcaeq
    | false =>
      cases hBd : B.default_fallback with
      | true =>
        simp only [hAd, hBd] at h₁ h₂
        cases hfm₁ : B.fallback_router.merge A.fallback_router with
        | error e =>
          simp only [hfm₁] at h₁
          exact Outcome.noConfusion h₁
        | ok fr₁ =>
        cases hcm₁ : A.catch_all_fallback.merge B.catch_all_fallback with
        | none =>
          simp only [hfm₁, hcm₁] at h₁
          exact Outcome.noConfusion h₁
        | some ca₁ =>
        cases hcm₂ : B.catch_all_fallback.merge A.catch_all_fallback with
        | none =>
          simp only [hfm₁, hcm₂] at h₂
          exact Outcome.noConfusion h₂
        | some ca₂ =>
        simp only [hfm₁, hcm₁] at h₁
        simp only [hfm₁, hcm₂] at h₂
        cases h₁
        cases h₂
        have hfnd₁ : shapesNodup fr₁.routes := pathRouter_merge_nodup hBf hfm₁
        have hcaeq : ca₁ = ca₂ := fallback_merge_comm hca hcm₁ hcm₂
        refine call_with_state_congr ?_ ?_ ?_ ?_ ?_ ?_ ?_ path state
        · exact hnd₁
        · exact hfnd₁
        · exact hpperm
        · exact List.Perm.refl _
        · exact hpnone₁.trans hpnone₂.symm
        · rfl
        · exact hcaeq
      | false =>
        simp only [hAd, hBd] at h₁
        exact Outcome.noConfusion h₁
  · have hpm : A.path_router.merge Router.new.path_router = .ok A.path_router := rfl
    have hnewflag : Router.new.default_fallback = true := rfl
    have hnewca : Router.new.catch_all_fallback = .Default .notFound := rfl
    have hcm : A.catch_all_fallback.merge (.Default .notFound)
        = some A.catch_all_fallback := by
      cases hid with
      | inl he =>
        rw [he]
        rfl
      | inr hc => exact merge_left_custom hc rfl
    cases hAd : A.default_fallback with
    | true =>
      have hfm : A.fallback_router.merge Router.new.fallback_router
          = .ok A.fallback_router := rfl
      simp only [Router.merge, hpm, hAd, hnewflag, hfm, hnewca, hcm]
      rw [← hAd]
    | false =>
      have hfm : Router.new.fallback_router.merge A.fallback_router
          = .ok A.fallback_router := by
        show PathRouter.new_fallback.merge A.fallback_router = .ok A.fallback_router
        simp only [PathRouter.merge, PathRouter.new_fallback]
        rw [insertAll_of_nodup (by simpa [shapesNodup] using hAf)]
        cases hAr : A.fallback_router.fallbackRoot with
        | some e =>
          simp only [hAr, List.nil_append]
          rw [← hAr]
        | none =>
          simp only [hAr, List.nil_append]
          rw [← hAr]
      simp only [Router.merge, hpm, hAd, hnewflag, hfm, hnewca, hcm]
      rw [← hAd]

/-- Witness for the amended C6: two one-route routers with distinct
patterns merge commutatively with respect to dispatch, and merging with
the empty router is an identity. -/
theorem C6_amended_merge_comm_and_identity_witness :
    ((Router.merge ((Router.new.route [Seg.lit "a"] (any 1)).getD Router.new)
        ((Router.new.route [Seg.lit "b"] (any 2)).getD Router.new)).getD
          Router.new).call_with_state ["a"] 0
      = ((Router.merge ((Router.new.route [Seg.lit "b"] (any 2)).getD Router.new)
        ((Router.new.route [Seg.lit "a"] (any 1)).getD Router.new)).getD
          Router.new).call_with_state ["a"] 0 ∧
    Router.merge ((Router.new.route [Seg.lit "a"] (any 1)).getD Router.new) Router.new
      = .ok ((Router.new.route [Seg.lit "a"] (any 1)).getD Router.new) := by
  have h := C6_amended_merge_comm_and_identity
    ((Router.new.route [Seg.lit "a"] (any 1)).getD Router.new)
    ((Router.new.route [Seg.lit "b"] (any 2)).getD Router.new)
    (by decide) (by decide) (by decide) (by decide) (by decide)
    (by decide) (by decide) (by decide) (by decide)
  exact ⟨h.1 _ _ (by decide) (by decide) ["a"] 0, h.2⟩
